/-
  Verification of the lwcell MQTT 3.1.1 client core
  (src/lwcell/src/apps/mqtt/lwcell_mqtt_client.c).

  Shallow embedding: the client aggregate becomes a Lean structure, every
  C helper becomes a pure state-passing function of the same name, and the
  machine-integer arithmetic of the source (uint8/uint16/uint32) is kept as
  Nat with explicit `% 2^w` at the points where the C types truncate.

  External collaborators that are not part of the source file (the `lwcell_buff`
  ring-buffer primitive, the enum layouts from the public headers, the
  transport send/close results and the monotonic clock) are modelled from the
  specification; each such definition carries a doc comment saying so.
-/
import Mathlib

set_option linter.unusedVariables false

/-- Modelled from the spec: result codes of the host library (`lwcellr_t`,
declared in the public header, not in the source file).  The spec's error
taxonomy distinguishes ok, a generic error, an out-of-memory error and a
connection-closed error; they are distinct enum members. -/
inductive lwcellr_t where
  | lwcellOK
  | lwcellERR
  | lwcellERRMEM
  | lwcellCLOSED
  deriving DecidableEq, Repr

/-- Modelled from the spec: the MQTT session state enumeration
(`lwcell_mqtt_state_t`, declared in the public header, not in the source
file).  The five constructor names are exactly the five identifiers the
source file uses. -/
inductive lwcell_mqtt_state_t where
  | LWCELL_MQTT_CONN_DISCONNECTED
  | LWCELL_MQTT_CONN_CONNECTING
  | LWCELL_MQTT_CONN_DISCONNECTING
  | LWCELL_MQTT_CONNECTING
  | LWCELL_MQTT_CONNECTED
  deriving DecidableEq, Repr

open lwcellr_t lwcell_mqtt_state_t

/- MQTT message type codes (enum mqtt_msg_type_t of the source). -/
def MQTT_MSG_TYPE_CONNECT : Nat := 0x01
def MQTT_MSG_TYPE_CONNACK : Nat := 0x02
def MQTT_MSG_TYPE_PUBLISH : Nat := 0x03
def MQTT_MSG_TYPE_PUBACK : Nat := 0x04
def MQTT_MSG_TYPE_PUBREC : Nat := 0x05
def MQTT_MSG_TYPE_PUBREL : Nat := 0x06
def MQTT_MSG_TYPE_PUBCOMP : Nat := 0x07
def MQTT_MSG_TYPE_SUBSCRIBE : Nat := 0x08
def MQTT_MSG_TYPE_SUBACK : Nat := 0x09
def MQTT_MSG_TYPE_UNSUBSCRIBE : Nat := 0x0A
def MQTT_MSG_TYPE_UNSUBACK : Nat := 0x0B
def MQTT_MSG_TYPE_PINGREQ : Nat := 0x0C
def MQTT_MSG_TYPE_PINGRESP : Nat := 0x0D
def MQTT_MSG_TYPE_DISCONNECT : Nat := 0x0E

/- Request status flag bits of the source. -/
def MQTT_REQUEST_FLAG_IN_USE : Nat := 0x01
def MQTT_REQUEST_FLAG_PENDING : Nat := 0x02
def MQTT_REQUEST_FLAG_SUBSCRIBE : Nat := 0x04
def MQTT_REQUEST_FLAG_UNSUBSCRIBE : Nat := 0x08

/- Parser states of the source. -/
def MQTT_PARSER_STATE_INIT : Nat := 0x00
def MQTT_PARSER_STATE_CALC_REM_LEN : Nat := 0x01
def MQTT_PARSER_STATE_READ_REM : Nat := 0x02

/-- Modelled from the spec: `LWCELL_CFG_MQTT_MAX_REQUESTS`, the compile-time
size of the request registry; the spec gives the default 8. -/
def LWCELL_CFG_MQTT_MAX_REQUESTS : Nat := 8

/-- Modelled from the spec: `LWCELL_CFG_CONN_POLL_INTERVAL`, the transport
poll tick in milliseconds; the spec gives the default 500. -/
def LWCELL_CFG_CONN_POLL_INTERVAL : Nat := 500

/-- `MQTT_RCV_GET_PACKET_TYPE(d)`: high nibble of the header byte. -/
def MQTT_RCV_GET_PACKET_TYPE (d : Nat) : Nat := (d >>> 4) &&& 0x0F

/-- `MQTT_RCV_GET_PACKET_QOS(d)`. -/
def MQTT_RCV_GET_PACKET_QOS (d : Nat) : Nat := (d >>> 1) &&& 0x03

/-- `MQTT_RCV_GET_PACKET_DUP(d)`. -/
def MQTT_RCV_GET_PACKET_DUP (d : Nat) : Nat := (d >>> 3) &&& 0x01

/-- `MQTT_RCV_GET_PACKET_RETAIN(d)`. -/
def MQTT_RCV_GET_PACKET_RETAIN (d : Nat) : Nat := d &&& 0x01

/-- Modelled from the spec: the TX ring buffer (`lwcell_buff_t`, an external
collaborator; §4.2 describes it as a bounded byte queue).  `capacity` is the
number of bytes it can hold, `data` the queued bytes in FIFO order; the
largest linear readable block is modelled as the whole queued content. -/
structure lwcell_buff_t where
  capacity : Nat
  data : List Nat
  deriving DecidableEq, Repr

/-- Modelled from the spec: `lwcell_buff_get_free`. -/
def lwcell_buff_get_free (b : lwcell_buff_t) : Nat := b.capacity - b.data.length

/-- Modelled from the spec: `lwcell_buff_write` appends bytes, never more
than the free space (the core only calls it after a size pre-check). -/
def lwcell_buff_write (b : lwcell_buff_t) (bytes : List Nat) : lwcell_buff_t :=
  { b with data := b.data ++ bytes.take (lwcell_buff_get_free b) }

/-- Modelled from the spec: `lwcell_buff_skip` drops consumed bytes. -/
def lwcell_buff_skip (b : lwcell_buff_t) (n : Nat) : lwcell_buff_t :=
  { b with data := b.data.drop n }

/-- Modelled from the spec: `lwcell_buff_reset` empties the buffer. -/
def lwcell_buff_reset (b : lwcell_buff_t) : lwcell_buff_t :=
  { b with data := [] }

/-- Modelled from the spec: linear readable block length; in the queue model
this is the whole content. -/
def lwcell_buff_get_linear_block_read_length (b : lwcell_buff_t) : Nat := b.data.length

/-- One slot of the request registry (`lwcell_mqtt_request_t`; the field list
follows the spec's data model §3 and the accesses made by the source). -/
structure lwcell_mqtt_request_t where
  status : Nat
  packet_id : Nat
  timeout_start_time : Nat
  expected_sent_len : Nat
  arg : Nat
  deriving DecidableEq, Repr

/-- The all-zero request slot (what `LWCELL_MEMSET(..., 0x00, ...)` and
`calloc` produce). -/
def emptyRequest : lwcell_mqtt_request_t :=
  { status := 0, packet_id := 0, timeout_start_time := 0, expected_sent_len := 0, arg := 0 }

instance : Inhabited lwcell_mqtt_request_t := ⟨emptyRequest⟩

/-- User events surfaced through the event callback.  One constructor per
`LWCELL_MQTT_EVT_*` kind the source emits, carrying the payload fields the
source fills in.  Opaque user-argument pointers are modelled as `Nat`. -/
inductive lwcell_mqtt_evt_t where
  | connect (status : Nat)
  | disconnect (is_accepted : Bool)
  | subscribe (arg : Nat) (res : lwcellr_t)
  | unsubscribe (arg : Nat) (res : lwcellr_t)
  | publish (arg : Nat) (res : lwcellr_t)
  | publish_recv (topic : List Nat) (payload : List Nat) (dup : Nat) (qos : Nat) (retain : Nat)
  | keep_alive
  deriving DecidableEq, Repr

/-- The MQTT client aggregate (`struct lwcell_mqtt_client`).  Fields mirror
the C struct; fields only the byte-parser front end uses (`msg_rem_len_mult`,
`msg_curr_pos`, `rx_buff_len`) are omitted because no embedded operation
reads them.  `keep_alive` stands for `info->keep_alive` (uint16).
`sys_now` models the external monotonic clock, and `conn_send_ok` /
`conn_close_ok` model the results the external transport returns from
`lwcell_conn_send` / `lwcell_conn_close` (spec §6 collaborator contracts). -/
structure lwcell_mqtt_client_t where
  conn_state : lwcell_mqtt_state_t
  poll_time : Nat
  tx_buff : lwcell_buff_t
  is_sending : Bool
  sent_total : Nat
  written_total : Nat
  last_packet_id : Nat
  requests : List lwcell_mqtt_request_t
  rx_buff : List Nat
  parser_state : Nat
  msg_hdr_byte : Nat
  msg_rem_len : Nat
  keep_alive : Nat
  sys_now : Nat
  conn_send_ok : Bool
  conn_close_ok : Bool
  deriving DecidableEq, Repr

/-- Byte `i` of the RX scratch buffer (`client->rx_buff[i]`, a `uint8_t`). -/
def rxByte (c : lwcell_mqtt_client_t) (i : Nat) : Nat := (c.rx_buff.getD i 0) % 256

/-- `prv_create_packet_id`: pre-increment the 16-bit counter, map the wrap
value 0 to 1, and return the new counter. -/
def prv_create_packet_id (c : lwcell_mqtt_client_t) : lwcell_mqtt_client_t × Nat :=
  let n0 := (c.last_packet_id + 1) % 65536
  let n := if n0 = 0 then 1 else n0
  ({ c with last_packet_id := n }, n)

/-- First registry index whose slot does not have the IN_USE bit
(the scan of `prv_request_create`). -/
def findFreeIdx : List lwcell_mqtt_request_t → Option Nat
  | [] => none
  | r :: rest =>
    if r.status &&& MQTT_REQUEST_FLAG_IN_USE = 0 then some 0
    else (findFreeIdx rest).map (· + 1)

/-- Apply `f` to slot `i` of the registry (pointer-mediated field updates of
the C code). -/
def updateReq (reqs : List lwcell_mqtt_request_t) (i : Nat)
    (f : lwcell_mqtt_request_t → lwcell_mqtt_request_t) : List lwcell_mqtt_request_t :=
  reqs.set i (f (reqs.getD i default))

/-- `prv_request_create`: first-free linear scan; on success the slot gets
the packet id, the user argument and status = IN_USE (other fields keep
their previous contents).  Returns the chosen index. -/
def prv_request_create (reqs : List lwcell_mqtt_request_t) (packet_id : Nat) (arg : Nat) :
    List lwcell_mqtt_request_t × Option Nat :=
  match findFreeIdx reqs with
  | none => (reqs, none)
  | some i =>
    (updateReq reqs i (fun r =>
      { r with packet_id := packet_id, arg := arg, status := MQTT_REQUEST_FLAG_IN_USE }), some i)

/-- `prv_request_delete`: zero the status of slot `i`. -/
def prv_request_delete (reqs : List lwcell_mqtt_request_t) (i : Nat) :
    List lwcell_mqtt_request_t :=
  updateReq reqs i (fun r => { r with status := 0 })

/-- `prv_request_set_pending`: OR in the PENDING bit and stamp the timeout
start time with the monotonic clock. -/
def prv_request_set_pending (now : Nat) (reqs : List lwcell_mqtt_request_t) (i : Nat) :
    List lwcell_mqtt_request_t :=
  updateReq reqs i (fun r =>
    { r with timeout_start_time := now, status := r.status ||| MQTT_REQUEST_FLAG_PENDING })

/-- The per-slot condition of `prv_request_get_pending`: PENDING bit set and
(`pkt_id == -1` or matching packet id).  `pkt_id` is the C `int32_t`. -/
def pendingMatch (pkt_id : Int) (r : lwcell_mqtt_request_t) : Bool :=
  (r.status &&& MQTT_REQUEST_FLAG_PENDING ≠ 0) && (pkt_id = -1 || (r.packet_id : Int) = pkt_id)

/-- `prv_request_get_pending`: index of the first slot satisfying
`pendingMatch pkt_id`. -/
def prv_request_get_pending : List lwcell_mqtt_request_t → Int → Option Nat
  | [], _ => none
  | r :: rest, pkt_id =>
    if pendingMatch pkt_id r then some 0
    else (prv_request_get_pending rest pkt_id).map (· + 1)

/-- `prv_request_send_err_callback`: the error event fired for a retired
request, chosen from its status kind bits. -/
def prv_request_send_err_callback (status : Nat) (arg : Nat) : lwcell_mqtt_evt_t :=
  if status &&& MQTT_REQUEST_FLAG_SUBSCRIBE ≠ 0 then .subscribe arg lwcellERR
  else if status &&& MQTT_REQUEST_FLAG_UNSUBSCRIBE ≠ 0 then .unsubscribe arg lwcellERR
  else .publish arg lwcellERR

/-- The fixed-header first byte assembled by `prv_write_fixed_header`:
type in the high nibble; for PUBLISH the DUP/QoS/RETAIN low bits; for
PUBREL, SUBSCRIBE and UNSUBSCRIBE the mandated value 0x02. -/
def fixedHeaderByte (type : Nat) (dup : Nat) (qos : Nat) (retain : Nat) : Nat :=
  let b := (type % 256) <<< 4 % 256
  if type = MQTT_MSG_TYPE_PUBLISH then
    b ||| ((if dup ≠ 0 then 1 else 0) <<< 3) ||| ((qos &&& 3) <<< 1) |||
      (if retain ≠ 0 then 1 else 0)
  else if type = MQTT_MSG_TYPE_PUBREL ∨ type = MQTT_MSG_TYPE_SUBSCRIBE ∨
      type = MQTT_MSG_TYPE_UNSUBSCRIBE then
    b ||| (1 <<< 1)
  else b

/-- The remaining-length encoding loop of `prv_write_fixed_header`
(`do { b = (rem_len & 0x7F) | (rem_len > 0x7F ? 0x80 : 0); write b;
rem_len >>= 7; } while (rem_len > 0)`), written with a fuel argument so
that it stays structurally recursive; `encodeRemLen` supplies enough fuel
for any input. -/
def encodeRemLenAux : Nat → Nat → List Nat
  | 0, n => [n % 128]
  | fuel + 1, n =>
    if n / 128 = 0 then [n % 128]
    else (n % 128 + 128) :: encodeRemLenAux fuel (n / 128)

/-- The byte list the remaining-length loop emits for value `n`; at least
one byte, least-significant 7-bit group first, continuation bit 0x80. -/
def encodeRemLen (n : Nat) : List Nat := encodeRemLenAux n n

/-- `prv_write_u8`. -/
def prv_write_u8 (c : lwcell_mqtt_client_t) (num : Nat) : lwcell_mqtt_client_t :=
  { c with tx_buff := lwcell_buff_write c.tx_buff [num % 256] }

/-- `prv_write_u16`: MSB first, then LSB. -/
def prv_write_u16 (c : lwcell_mqtt_client_t) (num : Nat) : lwcell_mqtt_client_t :=
  prv_write_u8 (prv_write_u8 c ((num % 65536) >>> 8)) (num &&& 0xFF)

/-- `prv_write_data`. -/
def prv_write_data (c : lwcell_mqtt_client_t) (bytes : List Nat) : lwcell_mqtt_client_t :=
  { c with tx_buff := lwcell_buff_write c.tx_buff bytes }

/-- `prv_write_string`: 16-bit big-endian length prefix followed by the
first `len` bytes of the string. -/
def prv_write_string (c : lwcell_mqtt_client_t) (str : List Nat) (len : Nat) :
    lwcell_mqtt_client_t :=
  prv_write_data (prv_write_u16 c len) (str.take len)

/-- `prv_write_fixed_header`: the header byte followed by the encoded
remaining length.  The C parameter `rem_len` is `uint16_t`, hence the
`% 65536` on entry. -/
def prv_write_fixed_header (c : lwcell_mqtt_client_t) (type : Nat) (dup : Nat) (qos : Nat)
    (retain : Nat) (rem_len : Nat) : lwcell_mqtt_client_t :=
  let c := { c with tx_buff := lwcell_buff_write c.tx_buff [fixedHeaderByte type dup qos retain] }
  { c with tx_buff := lwcell_buff_write c.tx_buff (encodeRemLen (rem_len % 65536)) }

/-- The length-counting loop of `prv_output_check_enough_memory`
(one byte per 7-bit group, at least one), fuel-structured like
`encodeRemLenAux`. -/
def numRemLenBytesAux : Nat → Nat → Nat
  | 0, _ => 1
  | fuel + 1, n => if n / 128 = 0 then 1 else 1 + numRemLenBytesAux fuel (n / 128)

/-- Number of bytes the remaining-length encoder emits for value `n`. -/
def numRemLenBytes (n : Nat) : Nat := numRemLenBytesAux n n

/-- `prv_output_check_enough_memory`: total raw packet size
(`rem_len + 1` header byte plus the length bytes), computed in `uint16_t`
arithmetic, compared against the free space truncated to `uint16_t`;
returns the total if it fits, otherwise 0.  The C parameter `rem_len` is
`uint16_t`, hence the `% 65536` on entry. -/
def prv_output_check_enough_memory (c : lwcell_mqtt_client_t) (rem_len : Nat) : Nat :=
  let r := rem_len % 65536
  let total_len := (r + 1 + numRemLenBytesAux r r) % 65536
  if (lwcell_buff_get_free c.tx_buff) % 65536 ≥ total_len then total_len else 0

/-- The remaining-length accumulation step of the parser's CALC_REM_LEN
state: `msg_rem_len |= (ch & 0x7F) << (7 * msg_rem_len_mult)` on the
`uint32_t` accumulator. -/
def calcRemLenStep (acc : Nat) (mult : Nat) (ch : Nat) : Nat :=
  (acc ||| ((ch &&& 0x7F) <<< (7 * mult))) % 4294967296

/-- Fold of `calcRemLenStep` over a byte list, multiplier starting at 0. -/
def calcRemLenAux : List Nat → Nat → Nat → Nat
  | [], _, acc => acc
  | ch :: rest, mult, acc => calcRemLenAux rest (mult + 1) (calcRemLenStep acc mult ch)

/-- The remaining-length value the incoming parser accumulates from a byte
list (continuation bits ignored by the accumulation itself, as in the C). -/
def calcRemLen (bytes : List Nat) : Nat := calcRemLenAux bytes 0 0

/-- `prv_send_data`: when no send is in flight hand the linear readable
block to the transport; on transport acceptance advance `written_total`
and set `is_sending`; when the buffer is empty reset it instead. -/
def prv_send_data (c : lwcell_mqtt_client_t) : lwcell_mqtt_client_t :=
  if c.is_sending then c
  else
    let len := lwcell_buff_get_linear_block_read_length c.tx_buff
    if len > 0 then
      if c.conn_send_ok then
        { c with written_total := (c.written_total + len) % 4294967296, is_sending := true }
      else c
    else { c with tx_buff := lwcell_buff_reset c.tx_buff }

/-- `prv_mqtt_close`: close the transport unless already disconnected or
disconnecting; on transport acceptance enter DISCONNECTING. -/
def prv_mqtt_close (c : lwcell_mqtt_client_t) : lwcell_mqtt_client_t :=
  if c.conn_state ≠ LWCELL_MQTT_CONN_DISCONNECTED ∧
      c.conn_state ≠ LWCELL_MQTT_CONN_DISCONNECTING then
    if c.conn_close_ok then { c with conn_state := LWCELL_MQTT_CONN_DISCONNECTING } else c
  else c

/-- `prv_write_ack_rec_rel_resp`: write an acknowledge packet
(fixed header with remaining length 2 plus the packet id) and flush, if
4 bytes of output memory are available; returns 1 on success, 0 when the
packet is silently dropped. -/
def prv_write_ack_rec_rel_resp (c : lwcell_mqtt_client_t) (msg_type : Nat) (pkt_id : Nat)
    (qos : Nat) : lwcell_mqtt_client_t × Nat :=
  if prv_output_check_enough_memory c 2 ≠ 0 then
    let c := prv_write_fixed_header c msg_type 0 qos 0 2
    let c := prv_write_u16 c pkt_id
    (prv_send_data c, 1)
  else (c, 0)

/-- `prv_sub_unsub`: shared body of subscribe and unsubscribe.  Requires a
nonempty topic, the CONNECTED state and a successful output-memory check;
allocates a packet id and a registry slot, writes the packet, marks the
request pending and flushes.  Returns 1 on success, 0 otherwise. -/
def prv_sub_unsub (c : lwcell_mqtt_client_t) (topic : List Nat) (qos : Nat) (arg : Nat)
    (sub : Bool) : lwcell_mqtt_client_t × Nat :=
  let len_topic := topic.length % 65536
  if len_topic = 0 then (c, 0)
  else
    let rem_len := 2 + len_topic + 2 + (if sub then 1 else 0)
    if c.conn_state = LWCELL_MQTT_CONNECTED ∧ prv_output_check_enough_memory c rem_len ≠ 0 then
      let (c, pkt_id) := prv_create_packet_id c
      match prv_request_create c.requests pkt_id arg with
      | (_, none) => (c, 0)
      | (reqs, some i) =>
        let c := { c with requests := reqs }
        let c := prv_write_fixed_header c
          (if sub then MQTT_MSG_TYPE_SUBSCRIBE else MQTT_MSG_TYPE_UNSUBSCRIBE) 0 1 0 rem_len
        let c := prv_write_u16 c pkt_id
        let c := prv_write_string c topic len_topic
        let c := if sub then prv_write_u8 c (min (qos % 256) 2) else c
        let c := { c with requests := updateReq c.requests i (fun r =>
          { r with status := r.status |||
              (if sub then MQTT_REQUEST_FLAG_SUBSCRIBE else MQTT_REQUEST_FLAG_UNSUBSCRIBE) }) }
        let c := { c with requests := prv_request_set_pending c.sys_now c.requests i }
        (prv_send_data c, 1)
    else (c, 0)

/-- `lwcell_mqtt_client_subscribe`: `prv_sub_unsub` with `sub = 1`;
result 1 maps to ok, anything else to the generic error. -/
def lwcell_mqtt_client_subscribe (c : lwcell_mqtt_client_t) (topic : List Nat) (qos : Nat)
    (arg : Nat) : lwcell_mqtt_client_t × lwcellr_t :=
  let (c, r) := prv_sub_unsub c topic qos arg true
  (c, if r = 1 then lwcellOK else lwcellERR)

/-- `lwcell_mqtt_client_unsubscribe`: `prv_sub_unsub` with `sub = 0`. -/
def lwcell_mqtt_client_unsubscribe (c : lwcell_mqtt_client_t) (topic : List Nat) (arg : Nat) :
    lwcell_mqtt_client_t × lwcellr_t :=
  let (c, r) := prv_sub_unsub c topic 0 arg false
  (c, if r = 1 then lwcellOK else lwcellERR)

/-- `lwcell_mqtt_client_publish`.  A NULL payload is modelled as the empty
byte list (the C uses the payload only when non-NULL with positive length).
Requires a nonempty topic; outside CONNECTED returns the closed error;
with insufficient output memory or a full registry returns the memory
error.  On the success path stamps `expected_sent_len`, writes the packet,
marks the request pending and flushes. -/
def lwcell_mqtt_client_publish (c : lwcell_mqtt_client_t) (topic : List Nat)
    (payload : List Nat) (qos : Nat) (retain : Nat) (arg : Nat) :
    lwcell_mqtt_client_t × lwcellr_t :=
  let len_topic := topic.length % 65536
  if len_topic = 0 then (c, lwcellERR)
  else
    let qos_u8 := qos % 256
    let rem_len := 2 + len_topic + payload.length + (if qos_u8 > 0 then 2 else 0)
    if c.conn_state ≠ LWCELL_MQTT_CONNECTED then (c, lwcellCLOSED)
    else
      let raw_len := prv_output_check_enough_memory c rem_len
      if raw_len ≠ 0 then
        let (c, pkt_id) := if qos_u8 > 0 then prv_create_packet_id c else (c, 0)
        match prv_request_create c.requests pkt_id arg with
        | (_, none) => (c, lwcellERRMEM)
        | (reqs, some i) =>
          let c := { c with requests := updateReq reqs i (fun r =>
            { r with expected_sent_len := (c.written_total + raw_len) % 4294967296 }) }
          let c := prv_write_fixed_header c MQTT_MSG_TYPE_PUBLISH 0 (min qos_u8 2) retain rem_len
          let c := prv_write_string c topic len_topic
          let c := if qos_u8 > 0 then prv_write_u16 c pkt_id else c
          let c := if payload.length > 0 then prv_write_data c payload else c
          let c := { c with requests := prv_request_set_pending c.sys_now c.requests i }
          (prv_send_data c, lwcellOK)
      else (c, lwcellERRMEM)

/-- `prv_mqtt_process_incoming_message`: dispatch one fully assembled packet
from the header byte, the remaining length and the RX buffer.  Returns the
updated client, the user events emitted (in order) and the C return value. -/
def prv_mqtt_process_incoming_message (c : lwcell_mqtt_client_t) :
    lwcell_mqtt_client_t × List lwcell_mqtt_evt_t × Nat :=
  let msg_type := MQTT_RCV_GET_PACKET_TYPE c.msg_hdr_byte
  if msg_type = MQTT_MSG_TYPE_CONNACK then
    let err := rxByte c 1
    if c.conn_state = LWCELL_MQTT_CONNECTING then
      let c := if err = 0 then { c with conn_state := LWCELL_MQTT_CONNECTED } else c
      (c, [.connect err], 1)
    else (c, [], 1)
  else if msg_type = MQTT_MSG_TYPE_PUBLISH then
    let qos := MQTT_RCV_GET_PACKET_QOS c.msg_hdr_byte
    let dup := MQTT_RCV_GET_PACKET_DUP c.msg_hdr_byte
    let retain := MQTT_RCV_GET_PACKET_RETAIN c.msg_hdr_byte
    let topic_len := ((rxByte c 0) <<< 8 ||| rxByte c 1) % 65536
    let pkt_id := if qos > 0 then ((rxByte c (2 + topic_len)) <<< 8 |||
      rxByte c (2 + topic_len + 1)) % 65536 else 0
    let dataOff := 2 + topic_len + (if qos > 0 then 2 else 0)
    let data_len := (c.msg_rem_len - dataOff) % 65536
    let c := if qos > 0 then
        (prv_write_ack_rec_rel_resp c
          (if qos = 1 then MQTT_MSG_TYPE_PUBACK else MQTT_MSG_TYPE_PUBREC) pkt_id qos).1
      else c
    (c, [.publish_recv ((c.rx_buff.drop 2).take topic_len)
      ((c.rx_buff.drop dataOff).take data_len) dup qos retain], 1)
  else if msg_type = MQTT_MSG_TYPE_PINGRESP then
    (c, [.keep_alive], 1)
  else if msg_type = MQTT_MSG_TYPE_SUBACK ∨ msg_type = MQTT_MSG_TYPE_UNSUBACK ∨
      msg_type = MQTT_MSG_TYPE_PUBREC ∨ msg_type = MQTT_MSG_TYPE_PUBREL ∨
      msg_type = MQTT_MSG_TYPE_PUBACK ∨ msg_type = MQTT_MSG_TYPE_PUBCOMP then
    let pkt_id := (rxByte c 0) <<< 8 ||| rxByte c 1
    if msg_type = MQTT_MSG_TYPE_PUBREC then
      ((prv_write_ack_rec_rel_resp c MQTT_MSG_TYPE_PUBREL pkt_id 1).1, [], 1)
    else if msg_type = MQTT_MSG_TYPE_PUBREL then
      ((prv_write_ack_rec_rel_resp c MQTT_MSG_TYPE_PUBCOMP pkt_id 0).1, [], 1)
    else
      match prv_request_get_pending c.requests (pkt_id : Int) with
      | some i =>
        let r := c.requests.getD i default
        let evts :=
          if msg_type = MQTT_MSG_TYPE_SUBACK ∨ msg_type = MQTT_MSG_TYPE_UNSUBACK then
            [(if msg_type = MQTT_MSG_TYPE_SUBACK then lwcell_mqtt_evt_t.subscribe
              else lwcell_mqtt_evt_t.unsubscribe) r.arg
              (if rxByte c 2 < 3 then lwcellOK else lwcellERR)]
          else [.publish r.arg lwcellOK]
        ({ c with requests := prv_request_delete c.requests i }, evts, 1)
      | none => (c, [], 1)
  else (c, [], 0)

/-- The QoS-0 retirement loop of `prv_mqtt_data_sent_cb`:
`while ((request = prv_request_get_pending(client, 0)) != NULL
        && client->sent_total >= request->expected_sent_len)`
each iteration deletes the found request and fires a PUBLISH ok event.
Fuel-structured; every iteration clears one PENDING flag, so fuel equal to
the registry length is enough. -/
def retireQos0Loop : Nat → List lwcell_mqtt_request_t → Nat →
    List lwcell_mqtt_request_t × List lwcell_mqtt_evt_t
  | 0, reqs, _ => (reqs, [])
  | fuel + 1, reqs, sent_total =>
    match prv_request_get_pending reqs 0 with
    | none => (reqs, [])
    | some i =>
      let r := reqs.getD i default
      if sent_total ≥ r.expected_sent_len then
        let (reqs2, evts) := retireQos0Loop fuel (prv_request_delete reqs i) sent_total
        (reqs2, .publish r.arg lwcellOK :: evts)
      else (reqs, [])

/-- `prv_mqtt_data_sent_cb`: clear `is_sending`, account the sent bytes,
reset the keep-alive poll counter; on failure initiate a close; on success
advance the TX read pointer, retire completed QoS-0 publish requests and
attempt the next flush. -/
def prv_mqtt_data_sent_cb (c : lwcell_mqtt_client_t) (sent_len : Nat) (successful : Bool) :
    lwcell_mqtt_client_t × List lwcell_mqtt_evt_t :=
  let c := { c with is_sending := false,
                    sent_total := (c.sent_total + sent_len) % 4294967296,
                    poll_time := 0 }
  if !successful then (prv_mqtt_close c, [])
  else
    let c := { c with tx_buff := lwcell_buff_skip c.tx_buff sent_len }
    let (reqs, evts) := retireQos0Loop c.requests.length c.requests c.sent_total
    let c := { c with requests := reqs }
    (prv_send_data c, evts)

/-- `prv_mqtt_poll_cb`: increment the poll counter; when not disconnecting
and the keep-alive deadline is reached with output memory available, write
and flush a PINGREQ and reset the counter.  The returned Bool observes
whether the PINGREQ branch fired. -/
def prv_mqtt_poll_cb (c : lwcell_mqtt_client_t) : lwcell_mqtt_client_t × Bool :=
  let c := { c with poll_time := (c.poll_time + 1) % 4294967296 }
  if c.conn_state = LWCELL_MQTT_CONN_DISCONNECTING then (c, false)
  else if c.keep_alive ≠ 0 ∧
      (c.poll_time * LWCELL_CFG_CONN_POLL_INTERVAL) % 4294967296 ≥ c.keep_alive * 1000 then
    if prv_output_check_enough_memory c 0 ≠ 0 then
      let c := prv_write_fixed_header c MQTT_MSG_TYPE_PINGREQ 0 0 0 0
      let c := prv_send_data c
      ({ c with poll_time := 0 }, true)
    else (c, false)
  else (c, false)

/-- The request-draining loop of `prv_mqtt_closed_cb`:
`while ((request = prv_request_get_pending(client, -1)) != NULL)` deletes
each pending request and fires the per-kind error callback.
Fuel-structured like `retireQos0Loop`. -/
def closedRequestsLoop : Nat → List lwcell_mqtt_request_t →
    List lwcell_mqtt_request_t × List lwcell_mqtt_evt_t
  | 0, reqs => (reqs, [])
  | fuel + 1, reqs =>
    match prv_request_get_pending reqs (-1) with
    | none => (reqs, [])
    | some i =>
      let r := reqs.getD i default
      let (reqs2, evts) := closedRequestsLoop fuel (prv_request_delete reqs i)
      (reqs2, prv_request_send_err_callback r.status r.arg :: evts)

/-- `prv_mqtt_closed_cb`: enter DISCONNECTED, fire the DISCONNECT event
(accepted iff the prior state was CONNECTED or DISCONNECTING), drain the
pending requests with error events, zero the whole registry, clear the
byte counters, reset the parser and the TX buffer. -/
def prv_mqtt_closed_cb (c : lwcell_mqtt_client_t) : lwcell_mqtt_client_t × List lwcell_mqtt_evt_t :=
  let state := c.conn_state
  let c := { c with conn_state := LWCELL_MQTT_CONN_DISCONNECTED }
  let accepted : Bool :=
    state = LWCELL_MQTT_CONNECTED ∨ state = LWCELL_MQTT_CONN_DISCONNECTING
  let (reqs, errEvts) := closedRequestsLoop c.requests.length c.requests
  let c := { c with requests := reqs }
  let c := { c with requests := List.replicate c.requests.length emptyRequest }
  let c := { c with is_sending := false, sent_total := 0, written_total := 0,
                    parser_state := MQTT_PARSER_STATE_INIT,
                    tx_buff := lwcell_buff_reset c.tx_buff }
  (c, .disconnect accepted :: errEvts)

/-- `m` consecutive invocations of the transport poll callback; the Bool
records whether any of them emitted a PINGREQ. -/
def pollRun : Nat → lwcell_mqtt_client_t → lwcell_mqtt_client_t × Bool
  | 0, c => (c, false)
  | m + 1, c =>
    let (c1, p) := prv_mqtt_poll_cb c
    let (c2, q) := pollRun m c1
    (c2, p || q)

theorem and_127_eq_mod (n : Nat) : n &&& 127 = n % 128 := by
  have h := Nat.and_pow_two_sub_one_eq_mod n 7
  norm_num at h
  exact h

theorem lor_shift_eq_add {acc b k : Nat} (h : acc < 2 ^ k) :
    acc ||| (b <<< k) = acc + b * 2 ^ k := by
  have h2 := Nat.mul_add_lt_is_or h b
  rw [Nat.shiftLeft_eq, Nat.mul_comm b (2 ^ k), Nat.lor_comm]
  omega

theorem getD_set_self {α : Type} (l : List α) (i : Nat) (a d : α) (h : i < l.length) :
    (l.set i a).getD i d = a := by
  induction l generalizing i with
  | nil => simp at h
  | cons x xs ih =>
    cases i with
    | zero => simp
    | succ j =>
      simp only [List.set_cons_succ, List.getD_cons_succ]
      exact ih j (by simpa using h)

theorem findFreeIdx_lt (reqs : List lwcell_mqtt_request_t) (i : Nat)
    (h : findFreeIdx reqs = some i) : i < reqs.length := by
  induction reqs generalizing i with
  | nil => simp [findFreeIdx] at h
  | cons r rest ih =>
    by_cases hr : r.status &&& MQTT_REQUEST_FLAG_IN_USE = 0
    · simp only [findFreeIdx, if_pos hr] at h
      injection h with h2
      simp [← h2]
    · simp only [findFreeIdx, if_neg hr] at h
      cases hfind : findFreeIdx rest with
      | none => simp [hfind] at h
      | some j =>
        simp only [hfind, Option.map_some] at h
        injection h with h2
        have := ih j hfind
        simp [← h2]
        omega

theorem pendingMatch_delete (pid : Int) (r : lwcell_mqtt_request_t) :
    pendingMatch pid { r with status := 0 } = false := by
  simp [pendingMatch, MQTT_REQUEST_FLAG_PENDING]

theorem get_pending_none (reqs : List lwcell_mqtt_request_t) (pid : Int)
    (h : prv_request_get_pending reqs pid = none) :
    reqs.filter (pendingMatch pid) = [] := by
  induction reqs with
  | nil => simp
  | cons r rest ih =>
    by_cases hr : pendingMatch pid r
    · simp [prv_request_get_pending, hr] at h
    · simp only [prv_request_get_pending, if_neg hr] at h
      cases hfind : prv_request_get_pending rest pid with
      | none => simp [List.filter_cons, hr, ih hfind]
      | some j => simp [hfind] at h

theorem get_pending_some (reqs : List lwcell_mqtt_request_t) (pid : Int) (i : Nat)
    (h : prv_request_get_pending reqs pid = some i) :
    i < reqs.length ∧
    pendingMatch pid (reqs.getD i default) = true ∧
    reqs.filter (pendingMatch pid) =
      reqs.getD i default :: (prv_request_delete reqs i).filter (pendingMatch pid) := by
  induction reqs generalizing i with
  | nil => simp [prv_request_get_pending] at h
  | cons r rest ih =>
    by_cases hr : pendingMatch pid r
    · simp only [prv_request_get_pending, if_pos hr] at h
      injection h with h2
      subst h2
      refine ⟨by simp, by simpa using hr, ?_⟩
      simp only [List.getD_cons_zero, List.filter_cons, hr, if_true]
      congr 1
      simp only [prv_request_delete, updateReq, List.getD_cons_zero, List.set_cons_zero]
      simp [List.filter_cons, pendingMatch_delete]
    · simp only [prv_request_get_pending, if_neg hr] at h
      cases hfind : prv_request_get_pending rest pid with
      | none => simp [hfind] at h
      | some j =>
        simp only [hfind, Option.map_some] at h
        injection h with h2
        subst h2
        obtain ⟨hlt, hmatch, hfilter⟩ := ih j hfind
        refine ⟨by simp; omega, by simpa using hmatch, ?_⟩
        simp only [List.filter_cons, hr, if_neg, List.getD_cons_succ]
        simp only [prv_request_delete, updateReq, List.getD_cons_succ, List.set_cons_succ,
          List.filter_cons, hr]
        simp only [prv_request_delete, updateReq] at hfilter
        simp [hfilter, hr]

theorem retireQos0Loop_events (fuel : Nat) : ∀ (reqs : List lwcell_mqtt_request_t) (sent : Nat),
    (reqs.filter (pendingMatch 0)).length ≤ fuel →
    (retireQos0Loop fuel reqs sent).2 =
      ((reqs.filter (pendingMatch 0)).takeWhile
        (fun r => decide (sent ≥ r.expected_sent_len))).map
        (fun r => lwcell_mqtt_evt_t.publish r.arg lwcellOK) := by
  induction fuel with
  | zero =>
    intro reqs sent hle
    have : reqs.filter (pendingMatch 0) = [] := List.length_eq_zero.mp (by omega)
    simp [retireQos0Loop, this]
  | succ fuel ih =>
    intro reqs sent hle
    cases hfind : prv_request_get_pending reqs 0 with
    | none =>
      rw [get_pending_none reqs 0 hfind]
      simp [retireQos0Loop, hfind]
    | some i =>
      obtain ⟨hlt, hmatch, hfilter⟩ := get_pending_some reqs 0 i hfind
      by_cases hsent : sent ≥ (reqs.getD i default).expected_sent_len
      · simp only [retireQos0Loop, hfind, if_pos hsent]
        rw [hfilter]
        simp only [List.takeWhile_cons, decide_eq_true_eq, hsent, if_pos, decide_True,
          List.map_cons]
        have hlen : ((prv_request_delete reqs i).filter (pendingMatch 0)).length ≤ fuel := by
          have : (reqs.filter (pendingMatch 0)).length =
              ((prv_request_delete reqs i).filter (pendingMatch 0)).length + 1 := by
            rw [hfilter]; simp
          omega
        rw [ih (prv_request_delete reqs i) sent hlen]
      · simp only [retireQos0Loop, hfind, if_neg hsent]
        rw [hfilter]
        simp only [List.takeWhile_cons, decide_eq_true_eq]
        rw [if_neg (by simpa [List.getD] using hsent)]
        simp

theorem closedRequestsLoop_events (fuel : Nat) : ∀ (reqs : List lwcell_mqtt_request_t),
    (reqs.filter (pendingMatch (-1))).length ≤ fuel →
    (closedRequestsLoop fuel reqs).2 =
      (reqs.filter (pendingMatch (-1))).map
        (fun r => prv_request_send_err_callback r.status r.arg) := by
  induction fuel with
  | zero =>
    intro reqs hle
    have : reqs.filter (pendingMatch (-1)) = [] := List.length_eq_zero.mp (by omega)
    simp [closedRequestsLoop, this]
  | succ fuel ih =>
    intro reqs hle
    cases hfind : prv_request_get_pending reqs (-1) with
    | none =>
      rw [get_pending_none reqs (-1) hfind]
      simp [closedRequestsLoop, hfind]
    | some i =>
      obtain ⟨hlt, hmatch, hfilter⟩ := get_pending_some reqs (-1) i hfind
      simp only [closedRequestsLoop, hfind]
      rw [hfilter]
      simp only [List.map_cons]
      have hlen : ((prv_request_delete reqs i).filter (pendingMatch (-1))).length ≤ fuel := by
        have : (reqs.filter (pendingMatch (-1))).length =
            ((prv_request_delete reqs i).filter (pendingMatch (-1))).length + 1 := by
          rw [hfilter]; simp
        omega
      rw [ih (prv_request_delete reqs i) hlen]

theorem calcRemLenAux_encodeRemLenAux (fuel : Nat) : ∀ n mult acc, n ≤ fuel →
    acc < 2 ^ (7 * mult) → acc + n * 2 ^ (7 * mult) < 4294967296 →
    calcRemLenAux (encodeRemLenAux fuel n) mult acc = acc + n * 2 ^ (7 * mult) := by
  induction fuel with
  | zero =>
    intro n mult acc hn hacc hlt
    have hn0 : n = 0 := Nat.le_zero.mp hn
    subst hn0
    simp only [encodeRemLenAux, calcRemLenAux, calcRemLenStep, Nat.zero_mod, Nat.zero_and,
      Nat.zero_shiftLeft, Nat.or_zero]
    rw [Nat.mod_eq_of_lt (by omega)]
    omega
  | succ fuel ih =>
    intro n mult acc hn hacc hlt
    by_cases h : n / 128 = 0
    · have hn128 : n < 128 := by omega
      simp only [encodeRemLenAux]
      rw [if_pos h]
      simp only [calcRemLenAux, calcRemLenStep]
      rw [Nat.mod_eq_of_lt hn128, and_127_eq_mod, Nat.mod_eq_of_lt hn128,
        lor_shift_eq_add hacc, Nat.mod_eq_of_lt hlt]
    · simp only [encodeRemLenAux]
      rw [if_neg h]
      simp only [calcRemLenAux, calcRemLenStep]
      rw [and_127_eq_mod, Nat.add_mod_right, Nat.mod_mod_of_dvd _ (dvd_refl 128),
        lor_shift_eq_add hacc]
      have hP : (2 : ℕ) ^ (7 * (mult + 1)) = 2 ^ (7 * mult) * 128 := by
        rw [show 7 * (mult + 1) = 7 * mult + 7 by ring, pow_add]
        norm_num
      have hmodle : n % 128 * 2 ^ (7 * mult) ≤ n * 2 ^ (7 * mult) :=
        Nat.mul_le_mul_right _ (Nat.mod_le n 128)
      have h127 : n % 128 * 2 ^ (7 * mult) ≤ 127 * 2 ^ (7 * mult) :=
        Nat.mul_le_mul_right _ (by omega)
      have key : n % 128 * 2 ^ (7 * mult) + n / 128 * 2 ^ (7 * (mult + 1)) =
          n * 2 ^ (7 * mult) := by
        have hd := Nat.div_add_mod n 128
        rw [hP]
        calc n % 128 * 2 ^ (7 * mult) + n / 128 * (2 ^ (7 * mult) * 128)
            = (128 * (n / 128) + n % 128) * 2 ^ (7 * mult) := by ring
          _ = n * 2 ^ (7 * mult) := by rw [hd]
      rw [Nat.mod_eq_of_lt (by omega)]
      rw [ih (n / 128) (mult + 1) _ (by omega) (by rw [hP]; omega) (by omega)]
      omega

theorem calcRemLen_encodeRemLen (n : Nat) (h : n < 4294967296) :
    calcRemLen (encodeRemLen n) = n := by
  unfold calcRemLen encodeRemLen
  have := calcRemLenAux_encodeRemLenAux n n 0 0 (le_refl n) (by norm_num) (by omega)
  simpa using this

/-- An all-free request registry of the default size 8. -/
def zeroRequests : List lwcell_mqtt_request_t := List.replicate 8 emptyRequest

/-- A freshly connected client with an empty 64-byte TX buffer, used as the
concrete base state of witnesses and counterexamples. -/
def connectedClient : lwcell_mqtt_client_t :=
  { conn_state := LWCELL_MQTT_CONNECTED, poll_time := 0,
    tx_buff := { capacity := 64, data := [] }, is_sending := false,
    sent_total := 0, written_total := 0, last_packet_id := 0,
    requests := zeroRequests, rx_buff := [], parser_state := 0,
    msg_hdr_byte := 0, msg_rem_len := 0, keep_alive := 10, sys_now := 1000,
    conn_send_ok := true, conn_close_ok := true }

/-- `connectedClient` with a 10-byte TX buffer. -/
def smallBuffClient : lwcell_mqtt_client_t :=
  { connectedClient with tx_buff := { capacity := 10, data := [] } }

/-- `connectedClient` with a 3-byte TX buffer. -/
def tinyBuffClient : lwcell_mqtt_client_t :=
  { connectedClient with tx_buff := { capacity := 3, data := [] } }

/-- `connectedClient` in the DISCONNECTED session state. -/
def disconnectedClient : lwcell_mqtt_client_t :=
  { connectedClient with conn_state := LWCELL_MQTT_CONN_DISCONNECTED }

/-- `connectedClient` with every registry slot IN_USE. -/
def fullRegistryClient : lwcell_mqtt_client_t :=
  { connectedClient with requests := List.replicate 8 { emptyRequest with status := 1 } }

/-- C7: the 16-bit packet identifier generator never yields 0 (from any
counter value, hence after any number of applications from the initial 0),
it maps the wrap value 65535 to 1, and the value it returns is the value it
stores as the new counter. -/
theorem C7_packet_id_generator (c : lwcell_mqtt_client_t) :
    (prv_create_packet_id c).2 ≠ 0 ∧
    (c.last_packet_id = 65535 → (prv_create_packet_id c).2 = 1) ∧
    (prv_create_packet_id c).1.last_packet_id = (prv_create_packet_id c).2 := by
  refine ⟨?_, ?_, rfl⟩
  · unfold prv_create_packet_id
    by_cases h : (c.last_packet_id + 1) % 65536 = 0 <;> simp [h]
  · intro hl
    unfold prv_create_packet_id
    simp [hl]

/-- C7 witness: at the wrap value the generator yields 1, which is nonzero. -/
theorem C7_witness :
    (prv_create_packet_id { connectedClient with last_packet_id := 65535 }).2 = 1 ∧
    (prv_create_packet_id { connectedClient with last_packet_id := 65535 }).2 ≠ 0 := by
  have h := C7_packet_id_generator { connectedClient with last_packet_id := 65535 }
  exact ⟨h.2.1 rfl, h.1⟩

/-- C2 counterexample: the claim fails at the value 65536 (within the claimed
range [0, 268435455]).  `prv_write_fixed_header` receives the remaining
length as a `uint16_t`, so for 65536 it writes the single length byte 0 and
the CALC_REM_LEN accumulation decodes that to 0, not 65536. -/
theorem C2_counterexample :
    calcRemLen ((prv_write_fixed_header connectedClient MQTT_MSG_TYPE_PUBLISH 0 0 0
        65536).tx_buff.data.drop 1) ≠ 65536 ∧
    calcRemLen ((prv_write_fixed_header connectedClient MQTT_MSG_TYPE_PUBLISH 0 0 0
        65536).tx_buff.data.drop 1) = 0 ∧
    65536 ≤ 268435455 := by decide

/-- C2 (amended): VLI encode (the remaining-length loop of
`prv_write_fixed_header`) followed by the incoming parser's CALC_REM_LEN
accumulation is the identity on [0, 65535], the domain of the encoder's
`uint16_t` parameter. -/
theorem C2_vli_roundtrip (n : Nat) (h : n ≤ 65535) :
    calcRemLen (encodeRemLen n) = n :=
  calcRemLen_encodeRemLen n (by omega)

/-- C2 witness: the round trip at the domain boundary 65535. -/
theorem C2_witness : calcRemLen (encodeRemLen 65535) = 65535 :=
  C2_vli_roundtrip 65535 (by norm_num)

/-- C8 counterexample: with `rem_len = 65533` the `uint16_t` total-size
computation wraps (65533 + 1 + 3 = 65537 ≡ 1), so on a buffer with 10 free
bytes the check returns 1 even though the free space is far below the true
raw packet size — the claim demands the return value 0 there. -/
theorem C8_counterexample :
    prv_output_check_enough_memory smallBuffClient 65533 = 1 ∧
    (1 : Nat) ≠ 0 ∧
    lwcell_buff_get_free smallBuffClient.tx_buff < 65533 + 1 + numRemLenBytes 65533 ∧
    prv_output_check_enough_memory smallBuffClient 65533 ≠
      (if lwcell_buff_get_free smallBuffClient.tx_buff ≥ 65533 + 1 + numRemLenBytes 65533
       then 65533 + 1 + numRemLenBytes 65533 else 0) := by decide

/-- C8 (amended): whenever the true raw packet size
`rem_len + 1 + numRemLenBytes rem_len` does not overflow `uint16_t`,
`prv_output_check_enough_memory` returns that size when the (16-bit
truncated) free space of the TX buffer is at least that size and 0
otherwise; and a publish whose pre-check returns 0 produces the memory
error with the client — in particular its TX buffer — completely
unchanged. -/
theorem C8_check_enough_memory (c : lwcell_mqtt_client_t) (rem_len : Nat)
    (h : rem_len + 1 + numRemLenBytes rem_len ≤ 65535) :
    (prv_output_check_enough_memory c rem_len =
      if lwcell_buff_get_free c.tx_buff % 65536 ≥ rem_len + 1 + numRemLenBytes rem_len
      then rem_len + 1 + numRemLenBytes rem_len else 0) ∧
    (∀ topic payload qos retain arg, c.conn_state = LWCELL_MQTT_CONNECTED →
      topic.length % 65536 ≠ 0 →
      prv_output_check_enough_memory c
        (2 + topic.length % 65536 + payload.length + (if qos % 256 > 0 then 2 else 0)) = 0 →
      lwcell_mqtt_client_publish c topic payload qos retain arg = (c, lwcellERRMEM)) := by
  constructor
  · have hrem : rem_len < 65536 := by omega
    unfold prv_output_check_enough_memory numRemLenBytes
    dsimp only
    rw [Nat.mod_eq_of_lt hrem]
    rw [Nat.mod_eq_of_lt (show rem_len + 1 + numRemLenBytesAux rem_len rem_len < 65536 by
      have := h; unfold numRemLenBytes at this; omega)]
  · intro topic payload qos retain arg hconn htopic hcheck
    unfold lwcell_mqtt_client_publish
    rw [if_neg htopic]
    rw [if_neg (by simp [hconn])]
    simp only [hcheck, ne_eq, not_true_eq_false, if_false, ite_false]

/-- C8 witness: on a 64-byte empty buffer the check for remaining length 5
returns the raw size 7; on a 3-byte buffer the same publish pre-check fails
and publish returns the memory error leaving the client unchanged. -/
theorem C8_witness :
    prv_output_check_enough_memory connectedClient 5 = 7 ∧
    lwcell_mqtt_client_publish tinyBuffClient [116] [104, 105] 0 0 0 =
      (tinyBuffClient, lwcellERRMEM) := by
  have h1 := C8_check_enough_memory connectedClient 5 (by norm_num [numRemLenBytes, numRemLenBytesAux])
  have h2 := C8_check_enough_memory tinyBuffClient 5 (by norm_num [numRemLenBytes, numRemLenBytesAux])
  constructor
  · rw [h1.1]
    decide
  · exact h2.2 [116] [104, 105] 0 0 0 rfl (by decide) (by decide)

/-- C10 counterexample: with an empty topic, publish on a non-CONNECTED
client returns the generic error (the `strlen(topic) == 0` check fires
before the state check), not the connection-closed error the claim
demands for every such client. -/
theorem C10_counterexample :
    disconnectedClient.conn_state ≠ LWCELL_MQTT_CONNECTED ∧
    (lwcell_mqtt_client_publish disconnectedClient [] [] 0 0 0).2 = lwcellERR ∧
    lwcellERR ≠ lwcellCLOSED := by decide

/-- C10 (amended): for every client whose session state is not CONNECTED
and a nonempty topic, publish returns the distinct connection-closed error
(not the generic error and not the memory error) and the whole client —
TX buffer, request registry and packet-identifier counter included — is
unchanged. -/
theorem C10_publish_not_connected (c : lwcell_mqtt_client_t) (topic payload : List Nat)
    (qos retain arg : Nat) (hconn : c.conn_state ≠ LWCELL_MQTT_CONNECTED)
    (htopic : topic.length % 65536 ≠ 0) :
    lwcell_mqtt_client_publish c topic payload qos retain arg = (c, lwcellCLOSED) ∧
    lwcellCLOSED ≠ lwcellERR ∧ lwcellCLOSED ≠ lwcellERRMEM := by
  refine ⟨?_, by decide, by decide⟩
  unfold lwcell_mqtt_client_publish
  rw [if_neg htopic]
  rw [if_pos hconn]

/-- C10 witness: a disconnected client, nonempty topic. -/
theorem C10_witness :
    lwcell_mqtt_client_publish disconnectedClient [116] [104, 105] 0 0 9 =
      (disconnectedClient, lwcellCLOSED) :=
  (C10_publish_not_connected disconnectedClient [116] [104, 105] 0 0 9
    (by decide) (by decide)).1

/-- C3 counterexample: with the registry full, `lwcell_mqtt_client_subscribe`
returns the generic error `lwcellERR`, not the memory error the claim
demands (only publish distinguishes the memory error). -/
theorem C3_counterexample :
    findFreeIdx fullRegistryClient.requests = none ∧
    (lwcell_mqtt_client_subscribe fullRegistryClient [116] 0 7).2 = lwcellERR ∧
    lwcellERR ≠ lwcellERRMEM := by decide

/-- C3 (amended): when the registry has no free slot, none of publish,
subscribe, unsubscribe writes a byte into the TX buffer; publish (on a
connected client with a nonempty topic) returns the memory error, while
subscribe and unsubscribe return the generic error. -/
theorem C3_registry_full (c : lwcell_mqtt_client_t)
    (hfull : findFreeIdx c.requests = none) :
    (∀ topic payload qos retain arg, c.conn_state = LWCELL_MQTT_CONNECTED →
      topic.length % 65536 ≠ 0 →
      (lwcell_mqtt_client_publish c topic payload qos retain arg).2 = lwcellERRMEM ∧
      (lwcell_mqtt_client_publish c topic payload qos retain arg).1.tx_buff = c.tx_buff) ∧
    (∀ topic qos arg,
      (lwcell_mqtt_client_subscribe c topic qos arg).2 = lwcellERR ∧
      (lwcell_mqtt_client_subscribe c topic qos arg).1.tx_buff = c.tx_buff) ∧
    (∀ topic arg,
      (lwcell_mqtt_client_unsubscribe c topic arg).2 = lwcellERR ∧
      (lwcell_mqtt_client_unsubscribe c topic arg).1.tx_buff = c.tx_buff) := by
  have hsub : ∀ topic qos arg sub,
      (prv_sub_unsub c topic qos arg sub).2 = 0 ∧
      (prv_sub_unsub c topic qos arg sub).1.tx_buff = c.tx_buff := by
    intro topic qos arg sub
    unfold prv_sub_unsub
    by_cases ht : topic.length % 65536 = 0
    · rw [if_pos ht]
      exact ⟨rfl, rfl⟩
    · rw [if_neg ht]
      by_cases hcm : c.conn_state = LWCELL_MQTT_CONNECTED ∧
          prv_output_check_enough_memory c (2 + topic.length % 65536 + 2 +
            (if sub then 1 else 0)) ≠ 0
      · rw [if_pos hcm]
        dsimp only [prv_create_packet_id]
        unfold prv_request_create
        rw [hfull]
        exact ⟨rfl, rfl⟩
      · rw [if_neg hcm]
        exact ⟨rfl, rfl⟩
  refine ⟨?_, ?_, ?_⟩
  · intro topic payload qos retain arg hconn htopic
    unfold lwcell_mqtt_client_publish
    rw [if_neg htopic]
    rw [if_neg (by simp [hconn])]
    by_cases hcheck : prv_output_check_enough_memory c
        (2 + topic.length % 65536 + payload.length + (if qos % 256 > 0 then 2 else 0)) ≠ 0
    · rw [if_pos hcheck]
      by_cases hq : qos % 256 > 0
      · rw [if_pos hq]
        dsimp only [prv_create_packet_id]
        unfold prv_request_create
        rw [hfull]
        exact ⟨rfl, rfl⟩
      · rw [if_neg hq]
        dsimp only
        unfold prv_request_create
        rw [hfull]
        exact ⟨rfl, rfl⟩
    · rw [if_neg hcheck]
      exact ⟨rfl, rfl⟩
  · intro topic qos arg
    have h := hsub topic qos arg true
    unfold lwcell_mqtt_client_subscribe
    rcases h with ⟨h1, h2⟩
    constructor
    · simp [h1]
    · exact h2
  · intro topic arg
    have h := hsub topic 0 arg false
    unfold lwcell_mqtt_client_unsubscribe
    rcases h with ⟨h1, h2⟩
    constructor
    · simp [h1]
    · exact h2

/-- C3 witness: concrete full registry; publish gives the memory error,
subscribe and unsubscribe the generic error, all with untouched TX data. -/
theorem C3_witness :
    (lwcell_mqtt_client_publish fullRegistryClient [116] [104, 105] 0 0 7).2 = lwcellERRMEM ∧
    (lwcell_mqtt_client_subscribe fullRegistryClient [116] 0 7).1.tx_buff =
      fullRegistryClient.tx_buff ∧
    (lwcell_mqtt_client_unsubscribe fullRegistryClient [116] 7).2 = lwcellERR := by
  have h := C3_registry_full fullRegistryClient (by decide)
  exact ⟨(h.1 [116] [104, 105] 0 0 7 rfl (by decide)).1,
    (h.2.1 [116] 0 7).2, (h.2.2 [116] 7).1⟩

/-- C5: a CONNACK processed while the session state is CONNECTING takes the
second body byte as the connection return code, moves to CONNECTED exactly
when that code is 0 (staying in CONNECTING otherwise), and in both cases
emits a CONNECT event carrying the code; a CONNACK in any other session
state changes nothing and emits no event (it is only logged). -/
theorem C5_connack (c : lwcell_mqtt_client_t)
    (htype : MQTT_RCV_GET_PACKET_TYPE c.msg_hdr_byte = MQTT_MSG_TYPE_CONNACK) :
    (c.conn_state = LWCELL_MQTT_CONNECTING →
      prv_mqtt_process_incoming_message c =
        ({ c with conn_state := if rxByte c 1 = 0 then LWCELL_MQTT_CONNECTED
                                else LWCELL_MQTT_CONNECTING },
         [.connect (rxByte c 1)], 1)) ∧
    (c.conn_state ≠ LWCELL_MQTT_CONNECTING →
      prv_mqtt_process_incoming_message c = (c, [], 1)) := by
  constructor
  · intro hconn
    unfold prv_mqtt_process_incoming_message
    rw [htype, if_pos rfl, if_pos hconn]
    by_cases herr : rxByte c 1 = 0
    · rw [if_pos herr, if_pos herr]
    · rw [if_neg herr, if_neg herr]
      rw [show { c with conn_state := LWCELL_MQTT_CONNECTING } = c by
        rw [← hconn]]
  · intro hconn
    unfold prv_mqtt_process_incoming_message
    rw [htype, if_pos rfl, if_neg hconn]

/-- A client in CONNECTING state holding a parsed CONNACK `20 02 00 00`. -/
def connackConnectingClient : lwcell_mqtt_client_t :=
  { connectedClient with
    conn_state := LWCELL_MQTT_CONNECTING, msg_hdr_byte := 0x20, msg_rem_len := 2,
    rx_buff := [0, 0] }

/-- A client in CONNECTED state holding the same parsed CONNACK. -/
def connackConnectedClient : lwcell_mqtt_client_t :=
  { connectedClient with
    msg_hdr_byte := 0x20, msg_rem_len := 2, rx_buff := [0, 0] }

/-- C5 witness: CONNACK `20 02 00 00` in CONNECTING yields CONNECTED and a
CONNECT event with code 0; the same packet while CONNECTED changes
nothing. -/
theorem C5_witness :
    prv_mqtt_process_incoming_message connackConnectingClient =
      ({ connackConnectingClient with conn_state := LWCELL_MQTT_CONNECTED },
       [.connect 0], 1) ∧
    prv_mqtt_process_incoming_message connackConnectedClient =
      (connackConnectedClient, [], 1) := by
  constructor
  · have h := (C5_connack connackConnectingClient (by decide)).1 rfl
    rw [h]
    decide
  · exact (C5_connack connackConnectedClient (by decide)).2 (by decide)

/-- C4: a SUBACK (resp. UNSUBACK) whose packet identifier matches a pending
request makes the dispatcher emit a SUBSCRIBE (resp. UNSUBSCRIBE) user event
whose result is ok exactly when the first response byte (the byte after the
2-byte packet id) is below 3 and the generic error otherwise, and then
retire that request; when no pending request matches, the packet only gets
logged: no state change and no event. -/
theorem C4_suback_unsuback (c : lwcell_mqtt_client_t) :
    (MQTT_RCV_GET_PACKET_TYPE c.msg_hdr_byte = MQTT_MSG_TYPE_SUBACK →
      (∀ i, prv_request_get_pending c.requests
          (((rxByte c 0) <<< 8 ||| rxByte c 1 : Nat) : Int) = some i →
        prv_mqtt_process_incoming_message c =
          ({ c with requests := prv_request_delete c.requests i },
           [.subscribe (c.requests.getD i default).arg
             (if rxByte c 2 < 3 then lwcellOK else lwcellERR)], 1)) ∧
      (prv_request_get_pending c.requests
          (((rxByte c 0) <<< 8 ||| rxByte c 1 : Nat) : Int) = none →
        prv_mqtt_process_incoming_message c = (c, [], 1))) ∧
    (MQTT_RCV_GET_PACKET_TYPE c.msg_hdr_byte = MQTT_MSG_TYPE_UNSUBACK →
      (∀ i, prv_request_get_pending c.requests
          (((rxByte c 0) <<< 8 ||| rxByte c 1 : Nat) : Int) = some i →
        prv_mqtt_process_incoming_message c =
          ({ c with requests := prv_request_delete c.requests i },
           [.unsubscribe (c.requests.getD i default).arg
             (if rxByte c 2 < 3 then lwcellOK else lwcellERR)], 1)) ∧
      (prv_request_get_pending c.requests
          (((rxByte c 0) <<< 8 ||| rxByte c 1 : Nat) : Int) = none →
        prv_mqtt_process_incoming_message c = (c, [], 1))) := by
  constructor
  · intro htype
    constructor
    · intro i hfind
      unfold prv_mqtt_process_incoming_message
      rw [htype]
      rw [if_neg (by decide), if_neg (by decide), if_neg (by decide),
        if_pos (by decide), if_neg (by decide), if_neg (by decide), hfind]
      simp [MQTT_MSG_TYPE_SUBACK, MQTT_MSG_TYPE_UNSUBACK]
    · intro hfind
      unfold prv_mqtt_process_incoming_message
      rw [htype]
      rw [if_neg (by decide), if_neg (by decide), if_neg (by decide),
        if_pos (by decide), if_neg (by decide), if_neg (by decide), hfind]
  · intro htype
    constructor
    · intro i hfind
      unfold prv_mqtt_process_incoming_message
      rw [htype]
      rw [if_neg (by decide), if_neg (by decide), if_neg (by decide),
        if_pos (by decide), if_neg (by decide), if_neg (by decide), hfind]
      simp [MQTT_MSG_TYPE_SUBACK, MQTT_MSG_TYPE_UNSUBACK]
    · intro hfind
      unfold prv_mqtt_process_incoming_message
      rw [htype]
      rw [if_neg (by decide), if_neg (by decide), if_neg (by decide),
        if_pos (by decide), if_neg (by decide), if_neg (by decide), hfind]

/-- A connected client holding a parsed SUBACK `90 03 00 01 00` with a
pending SUBSCRIBE request under packet id 1 in slot 0. -/
def subackClient : lwcell_mqtt_client_t :=
  { connectedClient with
    msg_hdr_byte := 0x90, msg_rem_len := 3, rx_buff := [0, 1, 0],
    requests := { status := 7, packet_id := 1, timeout_start_time := 0,
                  expected_sent_len := 0, arg := 55 } :: List.replicate 7 emptyRequest }

/-- C4 witness: the SUBACK with return code 0 fires a SUBSCRIBE ok event
for the pending request's argument and frees its slot. -/
theorem C4_witness :
    prv_mqtt_process_incoming_message subackClient =
      ({ subackClient with requests := prv_request_delete subackClient.requests 0 },
       [.subscribe 55 lwcellOK], 1) := by
  have h := ((C4_suback_unsuback subackClient).1 (by decide)).1 0 (by decide)
  rw [h]
  decide

theorem closedRequestsLoop_length (fuel : Nat) : ∀ reqs : List lwcell_mqtt_request_t,
    ((closedRequestsLoop fuel reqs).1).length = reqs.length := by
  induction fuel with
  | zero => intro reqs; rfl
  | succ fuel ih =>
    intro reqs
    cases hfind : prv_request_get_pending reqs (-1) with
    | none => simp [closedRequestsLoop, hfind]
    | some i =>
      simp only [closedRequestsLoop, hfind]
      rw [ih (prv_request_delete reqs i)]
      simp [prv_request_delete, updateReq]

/-- C6: the transport-closed handler enters DISCONNECTED, fires first the
DISCONNECT event whose `is_accepted` is true exactly when the prior state
was CONNECTED or DISCONNECTING, then one error event per pending request —
of the request's own kind, in registry order — and leaves the registry
all-zero and the TX buffer empty. -/
theorem C6_closed_cb (c : lwcell_mqtt_client_t) :
    (prv_mqtt_closed_cb c).1.conn_state = LWCELL_MQTT_CONN_DISCONNECTED ∧
    (prv_mqtt_closed_cb c).1.requests = List.replicate c.requests.length emptyRequest ∧
    (prv_mqtt_closed_cb c).1.tx_buff.data = [] ∧
    (prv_mqtt_closed_cb c).2 =
      lwcell_mqtt_evt_t.disconnect
        (decide (c.conn_state = LWCELL_MQTT_CONNECTED ∨
                 c.conn_state = LWCELL_MQTT_CONN_DISCONNECTING)) ::
      (c.requests.filter (pendingMatch (-1))).map
        (fun r => prv_request_send_err_callback r.status r.arg) := by
  refine ⟨rfl, ?_, rfl, ?_⟩
  · show List.replicate ((closedRequestsLoop c.requests.length c.requests).1).length
      emptyRequest = List.replicate c.requests.length emptyRequest
    rw [closedRequestsLoop_length]
  · show lwcell_mqtt_evt_t.disconnect _ :: (closedRequestsLoop c.requests.length c.requests).2 = _
    rw [closedRequestsLoop_events c.requests.length c.requests
      (List.length_filter_le (pendingMatch (-1)) c.requests)]

theorem prv_send_data_poll_time (c : lwcell_mqtt_client_t) :
    (prv_send_data c).poll_time = c.poll_time := by
  unfold prv_send_data
  dsimp only
  repeat' split
  all_goals rfl

theorem prv_send_data_keep_alive (c : lwcell_mqtt_client_t) :
    (prv_send_data c).keep_alive = c.keep_alive := by
  unfold prv_send_data
  dsimp only
  repeat' split
  all_goals rfl

theorem prv_mqtt_close_poll_time (c : lwcell_mqtt_client_t) :
    (prv_mqtt_close c).poll_time = c.poll_time := by
  unfold prv_mqtt_close
  repeat' split
  all_goals rfl

theorem prv_mqtt_close_keep_alive (c : lwcell_mqtt_client_t) :
    (prv_mqtt_close c).keep_alive = c.keep_alive := by
  unfold prv_mqtt_close
  repeat' split
  all_goals rfl

theorem sent_cb_poll_time_zero (c : lwcell_mqtt_client_t) (sent_len : Nat) (ok : Bool) :
    ((prv_mqtt_data_sent_cb c sent_len ok).1).poll_time = 0 := by
  unfold prv_mqtt_data_sent_cb
  cases ok with
  | false =>
    rw [if_pos (show (!false) = true from rfl)]
    dsimp only
    rw [prv_mqtt_close_poll_time]
  | true =>
    rw [if_neg (show ¬(!true) = true from by decide)]
    dsimp only
    rw [prv_send_data_poll_time]

theorem sent_cb_keep_alive (c : lwcell_mqtt_client_t) (sent_len : Nat) (ok : Bool) :
    ((prv_mqtt_data_sent_cb c sent_len ok).1).keep_alive = c.keep_alive := by
  unfold prv_mqtt_data_sent_cb
  cases ok with
  | false =>
    rw [if_pos (show (!false) = true from rfl)]
    dsimp only
    rw [prv_mqtt_close_keep_alive]
  | true =>
    rw [if_neg (show ¬(!true) = true from by decide)]
    dsimp only
    rw [prv_send_data_keep_alive]

theorem poll_cb_quiet (c : lwcell_mqtt_client_t) (h32 : c.poll_time + 1 < 4294967296)
    (hlt : (c.poll_time + 1) * LWCELL_CFG_CONN_POLL_INTERVAL < c.keep_alive * 1000) :
    prv_mqtt_poll_cb c = ({ c with poll_time := c.poll_time + 1 }, false) := by
  unfold prv_mqtt_poll_cb
  dsimp only
  rw [Nat.mod_eq_of_lt h32]
  by_cases hd : c.conn_state = LWCELL_MQTT_CONN_DISCONNECTING
  · rw [if_pos hd]
  · rw [if_neg hd]
    rw [if_neg]
    intro hcond
    have hle := Nat.mod_le ((c.poll_time + 1) * LWCELL_CFG_CONN_POLL_INTERVAL) 4294967296
    omega

theorem pollRun_no_ping (m : Nat) : ∀ (c : lwcell_mqtt_client_t) (t : Nat),
    c.poll_time = t → c.keep_alive < 65536 →
    (t + m) * LWCELL_CFG_CONN_POLL_INTERVAL < c.keep_alive * 1000 →
    (pollRun m c).2 = false := by
  induction m with
  | zero => intro c t ht hka hlt; rfl
  | succ m ih =>
    intro c t ht hka hlt
    simp only [LWCELL_CFG_CONN_POLL_INTERVAL] at hlt
    have h32 : c.poll_time + 1 < 4294967296 := by omega
    have hlt1 : (c.poll_time + 1) * LWCELL_CFG_CONN_POLL_INTERVAL < c.keep_alive * 1000 := by
      simp only [LWCELL_CFG_CONN_POLL_INTERVAL]
      omega
    have hq := poll_cb_quiet c h32 hlt1
    simp only [pollRun, hq]
    rw [ih { c with poll_time := c.poll_time + 1 } (c.poll_time + 1) rfl hka
      (show (c.poll_time + 1 + m) * 500 < c.keep_alive * 1000 from by omega)]
    rfl

/-- C9: every invocation of the send-complete handler — successful or failed
— leaves the keep-alive poll counter at 0; a PINGREQ can only fire at a poll
whose incremented counter covers the whole keep-alive interval; hence after
any send completion, as long as fewer polls have elapsed than the keep-alive
interval requires (with no further send completion in between), no PINGREQ
is emitted. -/
theorem C9_keep_alive_reset :
    (∀ (c : lwcell_mqtt_client_t) (sent_len : Nat) (ok : Bool),
      ((prv_mqtt_data_sent_cb c sent_len ok).1).poll_time = 0) ∧
    (∀ c : lwcell_mqtt_client_t, c.poll_time < 4294967296 → c.keep_alive < 65536 →
      (prv_mqtt_poll_cb c).2 = true →
      c.keep_alive ≠ 0 ∧
      (c.poll_time + 1) * LWCELL_CFG_CONN_POLL_INTERVAL ≥ c.keep_alive * 1000) ∧
    (∀ (m : Nat) (c : lwcell_mqtt_client_t) (sent_len : Nat) (ok : Bool),
      c.keep_alive < 65536 →
      m * LWCELL_CFG_CONN_POLL_INTERVAL < c.keep_alive * 1000 →
      (pollRun m (prv_mqtt_data_sent_cb c sent_len ok).1).2 = false) := by
  refine ⟨sent_cb_poll_time_zero, ?_, ?_⟩
  · intro c hp hka hping
    unfold prv_mqtt_poll_cb at hping
    dsimp only at hping
    by_cases hd : c.conn_state = LWCELL_MQTT_CONN_DISCONNECTING
    · rw [if_pos hd] at hping
      exact absurd hping (by simp)
    · rw [if_neg hd] at hping
      by_cases hcond : c.keep_alive ≠ 0 ∧
          (((c.poll_time + 1) % 4294967296) * LWCELL_CFG_CONN_POLL_INTERVAL) % 4294967296 ≥
            c.keep_alive * 1000
      · refine ⟨hcond.1, ?_⟩
        have h2 : (((c.poll_time + 1) % 4294967296) * 500) % 4294967296 ≥
            c.keep_alive * 1000 := hcond.2
        have h1 := hcond.1
        show (c.poll_time + 1) * 500 ≥ c.keep_alive * 1000
        rcases Nat.lt_or_ge (c.poll_time + 1) 4294967296 with hlt | hge
        · rw [Nat.mod_eq_of_lt hlt] at h2
          rcases Nat.lt_or_ge ((c.poll_time + 1) * 500) 4294967296 with hs | hs
          · rw [Nat.mod_eq_of_lt hs] at h2
            omega
          · omega
        · have hone : c.poll_time + 1 = 4294967296 := by omega
          rw [hone] at h2
          norm_num at h2
          omega
      · rw [if_neg hcond] at hping
        exact absurd hping (by simp)
  · intro m c sent_len ok hka hm
    apply pollRun_no_ping m _ 0 (sent_cb_poll_time_zero c sent_len ok)
    · rw [sent_cb_keep_alive]
      exact hka
    · rw [sent_cb_keep_alive]
      simpa using hm

/-- C9 witness: a failed send completion on a client with a stale poll
counter resets it to 0, and the 19 polls that follow (9.5 s at the 500 ms
tick, below the 10 s keep-alive) emit no PINGREQ. -/
theorem C9_witness :
    ((prv_mqtt_data_sent_cb { connectedClient with poll_time := 17 } 4 false).1).poll_time = 0 ∧
    (pollRun 19 (prv_mqtt_data_sent_cb { connectedClient with poll_time := 17 } 4 false).1).2 =
      false := by
  refine ⟨C9_keep_alive_reset.1 { connectedClient with poll_time := 17 } 4 false, ?_⟩
  exact C9_keep_alive_reset.2.2 19 { connectedClient with poll_time := 17 } 4 false
    (by decide) (by decide)

theorem updateReq_getD (reqs : List lwcell_mqtt_request_t) (i : Nat)
    (f : lwcell_mqtt_request_t → lwcell_mqtt_request_t) (h : i < reqs.length) :
    (updateReq reqs i f).getD i default = f (reqs.getD i default) :=
  getD_set_self reqs i _ default h

theorem updateReq_length (reqs : List lwcell_mqtt_request_t) (i : Nat)
    (f : lwcell_mqtt_request_t → lwcell_mqtt_request_t) :
    (updateReq reqs i f).length = reqs.length := by
  simp [updateReq]

theorem prv_write_u8_requests (c : lwcell_mqtt_client_t) (n : Nat) :
    (prv_write_u8 c n).requests = c.requests := rfl

theorem prv_write_u16_requests (c : lwcell_mqtt_client_t) (n : Nat) :
    (prv_write_u16 c n).requests = c.requests := rfl

theorem prv_write_string_requests (c : lwcell_mqtt_client_t) (s : List Nat) (n : Nat) :
    (prv_write_string c s n).requests = c.requests := rfl

theorem prv_write_data_requests (c : lwcell_mqtt_client_t) (bytes : List Nat) :
    (prv_write_data c bytes).requests = c.requests := rfl

theorem prv_write_fixed_header_requests (c : lwcell_mqtt_client_t) (t d q r l : Nat) :
    (prv_write_fixed_header c t d q r l).requests = c.requests := rfl

theorem prv_send_data_requests (c : lwcell_mqtt_client_t) :
    (prv_send_data c).requests = c.requests := by
  unfold prv_send_data
  dsimp only
  repeat' split
  all_goals rfl

theorem prv_write_string_sys_now (c : lwcell_mqtt_client_t) (s : List Nat) (n : Nat) :
    (prv_write_string c s n).sys_now = c.sys_now := rfl

theorem prv_write_data_sys_now (c : lwcell_mqtt_client_t) (bytes : List Nat) :
    (prv_write_data c bytes).sys_now = c.sys_now := rfl

theorem prv_write_fixed_header_sys_now (c : lwcell_mqtt_client_t) (t d q r l : Nat) :
    (prv_write_fixed_header c t d q r l).sys_now = c.sys_now := rfl

/-- C1 (amended): (1) a QoS-0 publish accepted into free slot `i` stamps that
slot as an in-use pending request with packet id 0, the caller's argument,
the current clock, and `expected_sent_len` equal to the pre-call
`written_total` plus the raw packet length returned by the memory check
(header byte + VLI length bytes + remaining length); (2) a successful
send-complete fires PUBLISH ok events exactly for the maximal leading run —
in registry-slot order — of pending packet-id-0 requests whose
`expected_sent_len` has been covered by the new cumulative `sent_total`
(so the event fires when that packet's bytes have left the host, except
that a pending QoS-0 request in an earlier slot with a larger
`expected_sent_len` defers it to a later send-complete). -/
theorem C1_qos0_publish_completion :
    (∀ (c : lwcell_mqtt_client_t) (topic payload : List Nat) (retain arg i : Nat),
      c.conn_state = LWCELL_MQTT_CONNECTED →
      topic.length % 65536 ≠ 0 →
      prv_output_check_enough_memory c (2 + topic.length % 65536 + payload.length + 0) ≠ 0 →
      findFreeIdx c.requests = some i →
      (lwcell_mqtt_client_publish c topic payload 0 retain arg).1.requests.getD i default =
        { status := MQTT_REQUEST_FLAG_IN_USE ||| MQTT_REQUEST_FLAG_PENDING,
          packet_id := 0,
          timeout_start_time := c.sys_now,
          expected_sent_len := (c.written_total + prv_output_check_enough_memory c
            (2 + topic.length % 65536 + payload.length + 0)) % 4294967296,
          arg := arg }) ∧
    (∀ (c : lwcell_mqtt_client_t) (sent_len : Nat),
      (prv_mqtt_data_sent_cb c sent_len true).2 =
        ((c.requests.filter (pendingMatch 0)).takeWhile
          (fun r => decide ((c.sent_total + sent_len) % 4294967296 ≥ r.expected_sent_len))).map
          (fun r => lwcell_mqtt_evt_t.publish r.arg lwcellOK)) := by
  constructor
  · intro c topic payload retain arg i hconn htopic hcheck hfree
    have hlen0 := findFreeIdx_lt c.requests i hfree
    unfold lwcell_mqtt_client_publish
    rw [if_neg htopic]
    rw [if_neg (by simp [hconn])]
    simp only [Nat.zero_mod, gt_iff_lt, lt_self_iff_false, if_false]
    rw [if_pos hcheck]
    unfold prv_request_create
    rw [hfree]
    dsimp only
    by_cases hpl : 0 < payload.length
    · simp only [hpl, if_true, prv_send_data_requests, prv_write_data_requests,
        prv_write_string_requests, prv_write_fixed_header_requests,
        prv_write_data_sys_now, prv_write_string_sys_now, prv_write_fixed_header_sys_now]
      unfold prv_request_set_pending
      rw [updateReq_getD _ _ _ (by rw [updateReq_length, updateReq_length]; exact hlen0)]
      rw [updateReq_getD _ _ _ (by rw [updateReq_length]; exact hlen0)]
      rw [updateReq_getD _ _ _ hlen0]
    · simp only [hpl, if_false, prv_send_data_requests, prv_write_data_requests,
        prv_write_string_requests, prv_write_fixed_header_requests,
        prv_write_data_sys_now, prv_write_string_sys_now, prv_write_fixed_header_sys_now]
      unfold prv_request_set_pending
      rw [updateReq_getD _ _ _ (by rw [updateReq_length, updateReq_length]; exact hlen0)]
      rw [updateReq_getD _ _ _ (by rw [updateReq_length]; exact hlen0)]
      rw [updateReq_getD _ _ _ hlen0]
  · intro c sent_len
    unfold prv_mqtt_data_sent_cb
    rw [if_neg (show ¬(!true) = true from by decide)]
    dsimp only
    exact retireQos0Loop_events c.requests.length c.requests _
      (List.length_filter_le _ _)

/-- Step 1 of the C1 trace: QoS-1 publish of topic `t`, payload `hi`
(9 raw bytes, packet id 1, slot 0); the transport send starts. -/
def c1Trace1 : lwcell_mqtt_client_t :=
  (lwcell_mqtt_client_publish connectedClient [116] [104, 105] 1 0 101).1

/-- Step 2: QoS-0 publish of the same topic and payload (7 raw bytes,
slot 1, `expected_sent_len` = 9 + 7 = 16). -/
def c1Trace2 : lwcell_mqtt_client_t :=
  (lwcell_mqtt_client_publish c1Trace1 [116] [104, 105] 0 0 102).1

/-- Step 3: send-complete for the 9 bytes of the QoS-1 packet
(`sent_total` = 9 < 16, no event); the 7 QoS-0 bytes start sending. -/
def c1Trace3 : lwcell_mqtt_client_t :=
  (prv_mqtt_data_sent_cb c1Trace2 9 true).1

/-- Step 4: PUBACK `40 02 00 01` retires the QoS-1 request, freeing
slot 0. -/
def c1Trace4 : lwcell_mqtt_client_t :=
  (prv_mqtt_process_incoming_message
    { c1Trace3 with msg_hdr_byte := 0x40, msg_rem_len := 2, rx_buff := [0, 1] }).1

/-- Step 5: a second QoS-0 publish lands in the freed slot 0 with
`expected_sent_len` = 16 + 7 = 23, ahead of slot 1 in registry order. -/
def c1Trace5 : lwcell_mqtt_client_t :=
  (lwcell_mqtt_client_publish c1Trace4 [116] [104, 105] 0 0 103).1

/-- C1 counterexample: the step-2 QoS-0 publish was accepted and its request
(slot 1, argument 102) has `expected_sent_len` 16; the send-complete for the
next 7 bytes raises the cumulative `sent_total` from 9 to exactly 16 — the
moment that packet's bytes have left the host — yet the handler fires no
PUBLISH event at all, because the pending QoS-0 request in slot 0 (stamped
23) is scanned first.  The claimed "fires exactly when `sent_total` first
reaches `expected_sent_len`" is false on this reachable trace. -/
theorem C1_counterexample :
    (lwcell_mqtt_client_publish c1Trace1 [116] [104, 105] 0 0 102).2 = lwcellOK ∧
    (c1Trace5.requests.getD 1 default).arg = 102 ∧
    (c1Trace5.requests.getD 1 default).expected_sent_len = 16 ∧
    pendingMatch 0 (c1Trace5.requests.getD 1 default) = true ∧
    c1Trace5.sent_total = 9 ∧
    (prv_mqtt_data_sent_cb c1Trace5 7 true).1.sent_total = 16 ∧
    (prv_mqtt_data_sent_cb c1Trace5 7 true).2 = [] := by decide

/-- C1 witness: on the freshly connected client, the accepted QoS-0 publish
of topic `t`, payload `hi` stamps slot 0 with `expected_sent_len` 0 + 7 and
packet id 0; a send-complete covering those 7 bytes fires exactly its
PUBLISH ok event. -/
theorem C1_witness :
    (lwcell_mqtt_client_publish connectedClient [116] [104, 105] 0 0 42).1.requests.getD 0
      default =
      { status := MQTT_REQUEST_FLAG_IN_USE ||| MQTT_REQUEST_FLAG_PENDING, packet_id := 0,
        timeout_start_time := 1000, expected_sent_len := 7, arg := 42 } ∧
    (prv_mqtt_data_sent_cb (lwcell_mqtt_client_publish connectedClient [116] [104, 105]
        0 0 42).1 7 true).2 = [.publish 42 lwcellOK] := by
  constructor
  · have h := C1_qos0_publish_completion.1 connectedClient [116] [104, 105] 0 42 0
      rfl (by decide) (by decide) (by decide)
    rw [h]
    decide
  · rw [C1_qos0_publish_completion.2
      (lwcell_mqtt_client_publish connectedClient [116] [104, 105] 0 0 42).1 7]
    decide
